import Mathlib

set_option linter.unusedVariables false

/-!
Verification development for the EcoSalvador conversational hazard-reporting
front-end.  The TypeScript sources are shallowly embedded: React state updates
become explicit state passing on an `AppState` record, each external
(awaitable, fallible) call is a parameter describing the outcome of that call,
and `Date.now()` reads are a parameter `clk : Nat → Nat` giving the value of
the i-th clock read inside one handler.  `setTimeout` callbacks of the source
run on the single-threaded event loop in the order they are scheduled, so a
handler together with its scheduled callbacks is flattened into one pure
transition, preserving the order of transcript appends.  JavaScript numbers
that the program treats as integers (severities, timestamps) are modelled as
`Int`/`Nat`; geographic coordinates as exact rationals.
-/

/-! ## Data model (src/types.ts) -/

/-- `enum Sender` from types.ts. -/
inductive Sender where
  | BOT
  | USER
  | SYSTEM
deriving DecidableEq, Repr

/- String constants of `enum ReportCategory` from types.ts. -/
namespace ReportCategory

def STRUCTURE : String := "Rachaduras e Estruturas"

def FLOODING : String := "Alagamentos e Enchentes"

def LANDSLIDE : String := "Deslizamentos e Encostas"

def INFRASTRUCTURE : String := "Riscos em Infraestrutura"

def INDOOR : String := "Dentro de Casa"

def EXTREME : String := "Sinais Climáticos Extremos"

def OTHER : String := "Outro"

end ReportCategory

/-- `interface QuickReplyOption` from types.ts. -/
structure QuickReplyOption where
  label : String
  value : String
deriving DecidableEq, Repr

/-- `interface Message` from types.ts.  The source builds `id` from
`Date.now().toString()` and `timestamp` from `new Date()` at the same moment;
both are derived from the single clock read `now` of that append. -/
structure Message where
  id : String
  sender : Sender
  text : String
  timestamp : Nat
  isQuickReply : Bool
  options : Option (List QuickReplyOption)
  isLocationRequest : Bool
  image : Option String
deriving DecidableEq, Repr

/-- `interface Coordinates` from types.ts; JavaScript numbers modelled as
exact rationals. -/
structure Coordinates where
  lat : Rat
  lng : Rat
deriving DecidableEq, Repr

/-- The `status` field of `interface Report`. -/
inductive ReportStatus where
  | pending
  | verified
  | resolved
deriving DecidableEq, Repr

/-- `interface Report` from types.ts. -/
structure Report where
  id : String
  category : String
  subcategory : Option String
  description : String
  location : Coordinates
  neighborhood : Option String
  timestamp : Nat
  severity : Int
  aiAnalysis : String
  status : ReportStatus
  imageUrl : Option String
deriving DecidableEq, Repr

/-- `interface AiResponse` from types.ts. -/
structure AiResponse where
  text : String
  severity : Int
  category : Option String
deriving DecidableEq, Repr

/-- `interface LocationExtractionResponse` from types.ts. -/
structure LocationExtractionResponse where
  neighborhood : String
  coordinates : Coordinates
  confirmationText : String
deriving DecidableEq, Repr

/-! ## AI Classification Gateway (src/unnamed/part_002, geminiService) -/

/-- Outcome of one `ai.models.generateContent` call on a structured
(JSON-schema) endpoint, combined with `JSON.parse`: the transport threw (or
`JSON.parse` threw on a malformed body), the response body was missing/empty
(`response.text` undefined or `""`, both falsy), or a value of the schema
type was parsed. -/
inductive StructuredResponse (α : Type) where
  | throwErr
  | empty
  | parsed (value : α)
deriving DecidableEq, Repr

/-- Outcome of one `ai.models.generateContent` call on an unstructured
endpoint: the transport threw, or it returned `response.text`
(`none` models the field being undefined). -/
inductive GenResponse where
  | throwErr
  | ok (text : Option String)
deriving DecidableEq, Repr

/-- JavaScript `String.prototype.trim` on the whitespace characters relevant
here, modelled on the character list (`String.trim` of the Lean core library
is not kernel-reducible). -/
def isWsChar (c : Char) : Bool := c = ' ' || c = '\t' || c = '\n' || c = '\r'

/-- Trim of leading and trailing whitespace, as `result = response.text?.trim()`
performs in `inferCategoryFromText`. -/
def jsTrim (s : String) : String :=
  String.mk (((s.data.dropWhile isWsChar).reverse.dropWhile isWsChar).reverse)

/-- `analyzeReportDescription` from geminiService: on success the parsed
`AiResponse` is returned unchanged; a thrown transport error, a missing/empty
body (`if (!jsonText) throw`) or a parse error all land in the `catch`, which
returns the fixed reassurance text with default severity 3.  The
`description` and `selectedCategory` arguments only shape the prompt and do
not affect which value is returned. -/
def analyzeReportDescription (description selectedCategory : String)
    (resp : StructuredResponse AiResponse) : AiResponse :=
  match resp with
  | StructuredResponse.parsed value => value
  | _ =>
    { text := "Entendido. Por favor, compartilhe a localização para que possamos registrar a ocorrência."
      severity := 3
      category := none }

/-- `extractLocationFromText` from geminiService: success returns the parsed
`LocationExtractionResponse`; every failure path returns the fixed Salvador
city-center fallback. -/
def extractLocationFromText (text : String)
    (resp : StructuredResponse LocationExtractionResponse) : LocationExtractionResponse :=
  match resp with
  | StructuredResponse.parsed value => value
  | _ =>
    { neighborhood := "Salvador (Centro)"
      coordinates := { lat := -12.9777, lng := -38.5016 }
      confirmationText := "Não consegui identificar o local exato pelo texto. Usarei o centro da cidade como referência." }

/-- The fixed canned greeting used by `generateInitialGreeting` both when the
call throws and when `response.text` is falsy. -/
def GREETING_FALLBACK : String :=
  "Olá! 🤖 Sou o EcoSalvador, seu assistente virtual inteligente. Utilizo IA e geolocalização para monitorar e registrar problemas ambientais em nossa cidade 🌍. Como posso ajudar você hoje?"

/-- `generateInitialGreeting` from geminiService:
`return response.text || fallback`, with the same fallback in the catch. -/
def generateInitialGreeting (resp : GenResponse) : String :=
  match resp with
  | GenResponse.ok (some t) => if t = "" then GREETING_FALLBACK else t
  | GenResponse.ok none => GREETING_FALLBACK
  | GenResponse.throwErr => GREETING_FALLBACK

/-- `Object.values(ReportCategory)` in declaration order, as used by the
validation step of `inferCategoryFromText`. -/
def validCategories : List String :=
  [ReportCategory.STRUCTURE, ReportCategory.FLOODING, ReportCategory.LANDSLIDE,
   ReportCategory.INFRASTRUCTURE, ReportCategory.INDOOR, ReportCategory.EXTREME,
   ReportCategory.OTHER]

/-- `inferCategoryFromText` from geminiService: the trimmed response text is
accepted only if it is truthy and a member of the closed category
enumeration (`if (result && validCategories.includes(result))`); otherwise,
and on any thrown error, the result is `null`.  The `text` argument only
shapes the prompt. -/
def inferCategoryFromText (text : String) (resp : GenResponse) : Option String :=
  match resp with
  | GenResponse.ok (some t) =>
    let result := jsTrim t
    if result ≠ "" ∧ result ∈ validCategories then some result else none
  | GenResponse.ok none => none
  | GenResponse.throwErr => none

/-! ## Dialogue Flow Controller (App component, src/types.ts part of the bundle) -/

/-- `enum FlowStep` of the App component. -/
inductive FlowStep where
  | GREETING
  | CATEGORY_SELECTION
  | SUBCATEGORY_SELECTION
  | DESCRIPTION
  | LOCATION_METHOD_SELECTION
  | LOCATION_INPUT_TEXT
  | LOCATION_INPUT_MAP
  | COMPLETED
deriving DecidableEq, Repr

/-- The `view` state of the App component, `'chat' | 'dashboard'`. -/
inductive View where
  | chat
  | dashboard
deriving DecidableEq, Repr

/-- `tempReportData : Partial<Report>`, the mutable report draft.  Only the
fields the controller ever writes are carried. -/
structure ReportDraft where
  category : Option String
  subcategory : Option String
  description : Option String
  severity : Option Int
  aiAnalysis : Option String
  imageUrl : Option String
deriving DecidableEq, Repr

/-- The empty draft `{}`. -/
def emptyDraft : ReportDraft := ⟨none, none, none, none, none, none⟩

/-- The React state of the App component, in `useState` declaration order. -/
structure AppState where
  view : View
  messages : List Message
  reports : List Report
  currentStep : FlowStep
  tempReportData : ReportDraft
  isTyping : Bool
  waitingForLocation : Bool
  showMapPicker : Bool
deriving DecidableEq, Repr

/-- The initial App state: chat view, empty transcript and report collection,
step GREETING, empty draft, all flags false. -/
def initState : AppState :=
  { view := View.chat
    messages := []
    reports := []
    currentStep := FlowStep.GREETING
    tempReportData := emptyDraft
    isTyping := false
    waitingForLocation := false
    showMapPicker := false }

/-- `MAIN_CATEGORIES` of the App component. -/
def MAIN_CATEGORIES : List QuickReplyOption :=
  [⟨"🏚️ Rachaduras e Estruturas", ReportCategory.STRUCTURE⟩,
   ⟨"🌧️ Alagamentos e Enchentes", ReportCategory.FLOODING⟩,
   ⟨"🌋 Deslizamentos e Encostas", ReportCategory.LANDSLIDE⟩,
   ⟨"🛣️ Infraestrutura Urbana", ReportCategory.INFRASTRUCTURE⟩,
   ⟨"🏠 Dentro de Casa", ReportCategory.INDOOR⟩,
   ⟨"🌪️ Sinais Extremos", ReportCategory.EXTREME⟩]

/-- `SUB_CATEGORIES` of the App component: a record mapping six of the seven
category values to their quick-reply option lists; lookup of any other key is
undefined (`none`). -/
def SUB_CATEGORIES (category : String) : Option (List QuickReplyOption) :=
  if category = ReportCategory.STRUCTURE then some
    [⟨"Rachaduras em parede", "Rachaduras em parede"⟩,
     ⟨"Rachaduras no chão", "Rachaduras no chão ou solo"⟩,
     ⟨"Muro inclinando", "Muro inclinando"⟩,
     ⟨"Poste torto", "Poste torto ou prestes a cair"⟩,
     ⟨"Portas/janelas travando", "Portas e janelas travando"⟩]
  else if category = ReportCategory.FLOODING then some
    [⟨"Bueiro entupido", "Bueiro entupido"⟩,
     ⟨"Água acumulada na rua", "Água acumulada na rua"⟩,
     ⟨"Alagamento em casa", "Alagamento dentro de casa"⟩,
     ⟨"Ralo retornando", "Ralo retornando água"⟩,
     ⟨"Esgoto transbordando", "Esgoto transbordando"⟩]
  else if category = ReportCategory.LANDSLIDE then some
    [⟨"Terra deslizando", "Terra deslizando"⟩,
     ⟨"Poeira saindo do barranco", "Poeira saindo do barranco"⟩,
     ⟨"Fenda no solo", "Fenda no solo"⟩,
     ⟨"Árvore inclinando", "Árvore inclinando em encosta"⟩,
     ⟨"Barulho de terra", "Barulho de terra rompendo"⟩]
  else if category = ReportCategory.INFRASTRUCTURE then some
    [⟨"Buraco grande na rua", "Buraco grande na rua"⟩,
     ⟨"Cratera se formando", "Cratera se formando"⟩,
     ⟨"Ponte com rachaduras", "Ponte com rachaduras"⟩,
     ⟨"Calçada cedendo", "Calçada cedendo"⟩,
     ⟨"Erosão perto de casas", "Erosão perto de casas"⟩]
  else if category = ReportCategory.INDOOR then some
    [⟨"Infiltração na parede", "Infiltração na parede"⟩,
     ⟨"Mofo repentino", "Mofo repentino"⟩,
     ⟨"Vazamento no teto", "Vazamento no teto"⟩,
     ⟨"Piso estufando", "Piso estufando"⟩,
     ⟨"Azulejos soltando", "Azulejos soltando"⟩]
  else if category = ReportCategory.EXTREME then some
    [⟨"Chuva muito forte", "Chuva muito forte"⟩,
     ⟨"Vento forte/Destruição", "Vento forte derrubando objetos"⟩,
     ⟨"Rio subindo", "Rio subindo rapidamente"⟩,
     ⟨"Cheiro forte bueiro", "Cheiro forte vindo dos bueiros"⟩,
     ⟨"Água barrenta", "Água barrenta surgindo"⟩]
  else none

/-- The two post-completion quick-reply options offered by `finalizeReport`. -/
def POST_COMPLETION_OPTIONS : List QuickReplyOption :=
  [⟨"Nova denúncia", "NEW_REPORT"⟩, ⟨"Ver Mapa de Risco", "VIEW_MAP"⟩]

/-- A message as built by `addMessage(text, sender, ...)` with all optional
arguments at their defaults except the image: a plain user message. -/
def userMsg (now : Nat) (text : String) (image : Option String) : Message :=
  ⟨toString now, Sender.USER, text, now, false, none, false, image⟩

/-- A plain bot message (`addMessage(text, Sender.BOT)`). -/
def botMsg (now : Nat) (text : String) : Message :=
  ⟨toString now, Sender.BOT, text, now, false, none, false, none⟩

/-- A bot quick-reply prompt (`addMessage(text, Sender.BOT, true, options)`). -/
def botQuickReply (now : Nat) (text : String) (options : List QuickReplyOption) : Message :=
  ⟨toString now, Sender.BOT, text, now, true, some options, false, none⟩

/-- A bot location-method prompt
(`addMessage(text, Sender.BOT, false, undefined, true)`). -/
def botLocationRequest (now : Nat) (text : String) : Message :=
  ⟨toString now, Sender.BOT, text, now, false, none, true, none⟩

/-- `addMessage`: `setMessages(prev => [...prev, newMessage])`. -/
def addMessage (s : AppState) (m : Message) : AppState :=
  { s with messages := s.messages ++ [m] }

/-- JavaScript `a || d` on an optional string field: `undefined` and the empty
string are falsy. -/
def orFalsy (a : Option String) (d : String) : String :=
  match a with
  | some v => if v = "" then d else v
  | none => d

/-- JavaScript `a || d` on an optional numeric field: `undefined` and `0` are
falsy. -/
def orFalsyInt (a : Option Int) (d : Int) : Int :=
  match a with
  | some v => if v = 0 then d else v
  | none => d

/-- `finalizeReport(coords, neighborhood?)` of the App component: synthesize
the `Report` from the draft (with the `||` fallbacks of the source), append it
to the report collection, then (in the scheduled callback) append the success
message and the post-completion quick-reply prompt and move to COMPLETED.
`clk 0` is the `Date.now()` read for the report, `clk 1` and `clk 2` those of
the two message appends. -/
def finalizeReport (clk : Nat → Nat) (s : AppState) (coords : Coordinates)
    (neighborhood : Option String) : AppState :=
  let newReport : Report :=
    { id := toString (clk 0)
      category := orFalsy s.tempReportData.category ReportCategory.OTHER
      subcategory := s.tempReportData.subcategory
      description := orFalsy s.tempReportData.description
        (orFalsy s.tempReportData.subcategory "Sem descrição detalhada")
      location := coords
      neighborhood := neighborhood
      timestamp := clk 0
      severity := orFalsyInt s.tempReportData.severity 1
      aiAnalysis := orFalsy s.tempReportData.aiAnalysis "Sem análise"
      status := ReportStatus.pending
      imageUrl := s.tempReportData.imageUrl }
  let s := { s with reports := s.reports ++ [newReport] }
  let s := { s with isTyping := true }
  let s := addMessage s (botMsg (clk 1) "✅ Denúncia registrada e analisada pela IA. O local foi adicionado ao mapa de risco.")
  let s := addMessage s (botQuickReply (clk 2) "O que deseja fazer agora?" POST_COMPLETION_OPTIONS)
  let s := { s with currentStep := FlowStep.COMPLETED }
  { s with isTyping := false }

/-- `handleUserMessage(text, image?)` of the App component, flattened over its
awaits and scheduled callbacks.  `inferResp`, `analyzeResp` and `locResp` are
the outcomes of the AI Gateway calls the handler may issue. -/
def handleUserMessage (clk : Nat → Nat) (s : AppState) (text : String)
    (image : Option String) (inferResp : GenResponse)
    (analyzeResp : StructuredResponse AiResponse)
    (locResp : StructuredResponse LocationExtractionResponse) : AppState :=
  let s :=
    match image with
    | some img => { s with tempReportData := { s.tempReportData with imageUrl := some img } }
    | none => s
  let s := addMessage s (userMsg (clk 0) text image)
  if s.currentStep = FlowStep.CATEGORY_SELECTION ∨ s.currentStep = FlowStep.SUBCATEGORY_SELECTION then
    let s := { s with isTyping := true }
    match inferCategoryFromText text inferResp with
    | some inferredCategory =>
      let s := { s with tempReportData :=
        { category := some inferredCategory, subcategory := none,
          description := some text, severity := none, aiAnalysis := none,
          imageUrl := none } }
      let s := addMessage s (botMsg (clk 1)
        ("Entendido. Identifiquei que se trata de: " ++ inferredCategory ++ "."))
      let analysis := analyzeReportDescription text inferredCategory analyzeResp
      let s := { s with tempReportData :=
        { s.tempReportData with severity := some analysis.severity,
                                aiAnalysis := some analysis.text } }
      let s := addMessage s (botMsg (clk 2) analysis.text)
      let s := addMessage s (botLocationRequest (clk 3)
        "Para finalizar, como prefere informar a localização exata?")
      let s := { s with currentStep := FlowStep.LOCATION_METHOD_SELECTION }
      { s with isTyping := false }
    | none =>
      let s := addMessage s (botQuickReply (clk 1)
        "Não consegui identificar a categoria automaticamente. Por favor, selecione uma das opções."
        MAIN_CATEGORIES)
      let s := { s with currentStep := FlowStep.CATEGORY_SELECTION }
      { s with isTyping := false }
  else if s.currentStep = FlowStep.DESCRIPTION then
    let s := { s with isTyping := true }
    let fullDescription :=
      match s.tempReportData.subcategory with
      | some sub => if sub = "" then text else "[" ++ sub ++ "] - " ++ text
      | none => text
    let analysis := analyzeReportDescription fullDescription
      (orFalsy s.tempReportData.category "") analyzeResp
    let s := { s with tempReportData :=
      { s.tempReportData with description := some fullDescription,
                              severity := some analysis.severity,
                              aiAnalysis := some analysis.text } }
    let s := addMessage s (botMsg (clk 1) analysis.text)
    let s := addMessage s (botLocationRequest (clk 2)
      "Como você prefere informar a localização da ocorrência?")
    let s := { s with currentStep := FlowStep.LOCATION_METHOD_SELECTION }
    { s with isTyping := false }
  else if s.currentStep = FlowStep.LOCATION_INPUT_TEXT then
    let s := { s with isTyping := true }
    let locationData := extractLocationFromText text locResp
    let s := addMessage s (botMsg (clk 1) locationData.confirmationText)
    let s := finalizeReport (fun i => clk (i + 2)) s locationData.coordinates
      (some locationData.neighborhood)
    { s with isTyping := false }
  else s

/-- `handlePostCompletionAction` of the App component. -/
def handlePostCompletionAction (clk : Nat → Nat) (s : AppState) (value : String) : AppState :=
  if value = "NEW_REPORT" then
    let s := addMessage s (userMsg (clk 0) "Nova denúncia" none)
    let s := { s with tempReportData := emptyDraft }
    let s := addMessage s (botQuickReply (clk 1)
      "Sobre qual tipo de problema climático deseja alertar?" MAIN_CATEGORIES)
    { s with currentStep := FlowStep.CATEGORY_SELECTION }
  else if value = "VIEW_MAP" then
    { s with view := View.dashboard }
  else s

/-- `handleQuickReply(value)` of the App component. -/
def handleQuickReply (clk : Nat → Nat) (s : AppState) (value : String) : AppState :=
  if s.currentStep = FlowStep.CATEGORY_SELECTION then
    let label :=
      match MAIN_CATEGORIES.find? (fun opt => decide (opt.value = value)) with
      | some opt => opt.label
      | none => value
    let s := addMessage s (userMsg (clk 0) label none)
    let s := { s with tempReportData :=
      { category := some value, subcategory := none, description := none,
        severity := none, aiAnalysis := none, imageUrl := none } }
    let subCheck :=
      match SUB_CATEGORIES value with
      | some subOptions => if subOptions.length > 0 then some subOptions else none
      | none => none
    match subCheck with
    | some subOptions =>
      let s := { s with isTyping := true }
      let s := addMessage s (botQuickReply (clk 1) "Pode especificar melhor o problema?" subOptions)
      let s := { s with currentStep := FlowStep.SUBCATEGORY_SELECTION }
      { s with isTyping := false }
    | none =>
      let s := { s with isTyping := true }
      let s := addMessage s (botMsg (clk 1)
        ("Certo, " ++ label ++ ". Por favor, descreva a situação ou envie uma foto."))
      let s := { s with currentStep := FlowStep.DESCRIPTION }
      { s with isTyping := false }
  else if s.currentStep = FlowStep.SUBCATEGORY_SELECTION then
    let s := addMessage s (userMsg (clk 0) value none)
    let s := { s with tempReportData := { s.tempReportData with subcategory := some value } }
    let s := { s with isTyping := true }
    let s := addMessage s (botMsg (clk 1)
      "Entendido. Se tiver mais detalhes ou uma foto, pode enviar agora. Caso contrário, apenas digite \x27ok\x27.")
    let s := { s with currentStep := FlowStep.DESCRIPTION }
    { s with isTyping := false }
  else if s.currentStep = FlowStep.COMPLETED then
    handlePostCompletionAction clk s value
  else s

/-- The location methods of `handleLocationRequest`. -/
inductive LocationMethod where
  | gps
  | map
  | text
deriving DecidableEq, Repr

/-- Outcome of the one-shot `navigator.geolocation.getCurrentPosition`
request: the success callback with device coordinates, the error callback, or
geolocation being absent from `navigator`. -/
inductive GeoOutcome where
  | success (latitude longitude : Rat)
  | failure
  | unsupported
deriving DecidableEq, Repr

/-- `handleLocationRequest(method)` of the App component; `geo` is the
outcome of the GPS request (only consulted on the `gps` method). -/
def handleLocationRequest (clk : Nat → Nat) (s : AppState) (method : LocationMethod)
    (geo : GeoOutcome) : AppState :=
  match method with
  | LocationMethod.gps =>
    let s := { s with waitingForLocation := true }
    match geo with
    | GeoOutcome.success latitude longitude =>
      let s := { s with waitingForLocation := false }
      let s := addMessage s (userMsg (clk 0) "📍 Localização GPS recebida." none)
      finalizeReport (fun i => clk (i + 1)) s ⟨latitude, longitude⟩ (some "Localização GPS")
    | GeoOutcome.failure =>
      let s := { s with waitingForLocation := false }
      addMessage s (botMsg (clk 0) "Erro ao obter GPS. Tente digitar o bairro ou usar o mapa.")
    | GeoOutcome.unsupported =>
      let s := { s with waitingForLocation := false }
      addMessage s (botMsg (clk 0) "GPS não suportado.")
  | LocationMethod.text =>
    let s := addMessage s (userMsg (clk 0) "✍️ Vou digitar o endereço/bairro" none)
    let s := { s with isTyping := true }
    let s := addMessage s (botMsg (clk 1)
      "Por favor, digite o nome do bairro e um ponto de referência próximo.")
    let s := { s with currentStep := FlowStep.LOCATION_INPUT_TEXT }
    { s with isTyping := false }
  | LocationMethod.map =>
    let s := addMessage s (userMsg (clk 0) "🗺️ Vou marcar no mapa" none)
    let s := { s with showMapPicker := true }
    { s with currentStep := FlowStep.LOCATION_INPUT_MAP }

/-- `handleMapLocationSelect(coords)` of the App component. -/
def handleMapLocationSelect (clk : Nat → Nat) (s : AppState) (coords : Coordinates) : AppState :=
  let s := { s with showMapPicker := false }
  let s := addMessage s (userMsg (clk 0) "📍 Local marcado no mapa." none)
  finalizeReport (fun i => clk (i + 1)) s coords (some "Marcado no Mapa")

/-! ## Report Aggregator (Dashboard component, src/unnamed/part_001) -/

/-- `r.neighborhood || "Desconhecido"`: the bucket key of a report in the
neighborhood grouping; an absent (or empty, hence falsy) label goes to the
literal unknown bucket. -/
def hoodOf (r : Report) : String :=
  match r.neighborhood with
  | some h => if h = "" then "Desconhecido" else h
  | none => "Desconhecido"

/-- One value of the `stats` record accumulated by `neighborhoodRisks`. -/
structure HoodStats where
  total : Nat
  sumSeverity : Int
  count : Nat
deriving DecidableEq, Repr

/-- One update of the `stats` record for a report with bucket `hood` and
severity `sev`: create the entry on first sight (at the end, matching
JavaScript object key insertion order), otherwise increment in place. -/
def bumpStats : List (String × HoodStats) → String → Int → List (String × HoodStats)
  | [], hood, sev => [(hood, ⟨1, sev, 1⟩)]
  | (k, v) :: rest, hood, sev =>
    if k = hood then (k, ⟨v.total + 1, v.sumSeverity + sev, v.count + 1⟩) :: rest
    else (k, v) :: bumpStats rest hood sev

/-- The `stats` record of `neighborhoodRisks` after the `reports.forEach`
loop, as an insertion-ordered association list. -/
def collectStats (rs : List Report) : List (String × HoodStats) :=
  rs.foldl (fun acc r => bumpStats acc (hoodOf r) r.severity) []

/-- The value of `(sum / count).toFixed(1)` in tenths: the integer nearest to
`10 * sum / count`, ties resolved to the larger integer, exactly the rounding
rule of `Number.prototype.toFixed`.  Equals `floor((20 * sum + count) / (2 * count))`. -/
def roundTenths (sum : Int) (count : Nat) : Int :=
  Int.fdiv (20 * sum + count) (2 * count)

/-- One row of the neighborhood risk table.  The source carries `riskScore` as
the string `(sumSeverity / count).toFixed(1)` and sorts by `parseFloat` of it;
the row is modelled by that value in tenths (`riskTenths`), which determines
both the string and the comparator order. -/
structure HoodRisk where
  name : String
  riskTenths : Int
  totalReports : Nat
deriving DecidableEq, Repr

/-- The row built from one `stats` entry by the `.map` of `neighborhoodRisks`. -/
def toRisk (kv : String × HoodStats) : HoodRisk :=
  ⟨kv.1, roundTenths kv.2.sumSeverity kv.2.count, kv.2.total⟩

/-- Stable insertion of `x` into a list sorted by non-increasing `key`: `x`
goes after every element whose key is greater than or equal to its own. -/
def insertDesc (key : α → Int) (x : α) : List α → List α
  | [] => [x]
  | y :: ys => if key y < key x then x :: y :: ys else y :: insertDesc key x ys

/-- Stable sort by non-increasing `key`.  ECMAScript 2019 requires
`Array.prototype.sort` to be stable; a stable sort of a list under a total
preorder is unique, so this insertion sort computes exactly the array the
source's `.sort((a, b) => keyb - keya)` produces. -/
def sortDesc (key : α → Int) (l : List α) : List α :=
  l.foldl (fun acc x => insertDesc key x acc) []

/-- `neighborhoodRisks` of the Dashboard component: accumulate the `stats`
record over the reports, map each entry to its row, and sort by descending
risk score. -/
def neighborhoodRisks (rs : List Report) : List HoodRisk :=
  sortDesc HoodRisk.riskTenths ((collectStats rs).map toRisk)

/-- One `counts` record update of `categoryData`. -/
def bumpCount : List (String × Nat) → String → List (String × Nat)
  | [], cat => [(cat, 1)]
  | (k, n) :: rest, cat =>
    if k = cat then (k, n + 1) :: rest else (k, n) :: bumpCount rest cat

/-- The `counts` record of `categoryData` after the `reports.forEach` loop. -/
def categoryCounts (rs : List Report) : List (String × Nat) :=
  rs.foldl (fun acc r => bumpCount acc r.category) []

/-- `name.split(' ')[1] || name.substring(0, 10)`: the shortened x-axis name
of a category bar. -/
def shortName (name : String) : String :=
  match (name.splitOn " ").get? 1 with
  | some p => if p = "" then String.mk (name.data.take 10) else p
  | none => String.mk (name.data.take 10)

/-- One bar of the category chart. -/
structure CategoryDatum where
  name : String
  fullName : String
  value : Nat
deriving DecidableEq, Repr

/-- `categoryData` of the Dashboard component: count reports per category,
map to chart bars, sort by descending count. -/
def categoryData (rs : List Report) : List CategoryDatum :=
  sortDesc (fun d => (d.value : Int))
    ((categoryCounts rs).map (fun kv => ⟨shortName kv.1, kv.1, kv.2⟩))

/-- The chart colors used by the severity pie chart (`COLORS`). -/
def COLOR_PRIMARY : String := "#008069"

def COLOR_WARNING : String := "#eab308"

def COLOR_DANGER : String := "#ef4444"

/-- The `low`, `medium` and `high` counters of `severityData` after the
`reports.forEach` loop: `high` counts severity ≥ 4, `medium` counts
severity = 3, `low` counts everything else. -/
def severityCounts (rs : List Report) : Nat × Nat × Nat :=
  rs.foldl
    (fun acc r =>
      if 4 ≤ r.severity then (acc.1, acc.2.1, acc.2.2 + 1)
      else if r.severity = 3 then (acc.1, acc.2.1 + 1, acc.2.2)
      else (acc.1 + 1, acc.2.1, acc.2.2))
    (0, 0, 0)

/-- One slice of the severity pie chart. -/
structure SeverityDatum where
  name : String
  value : Nat
  color : String
deriving DecidableEq, Repr

/-- `severityData` of the Dashboard component: the three severity buckets,
with empty buckets filtered out of the chart data. -/
def severityData (rs : List Report) : List SeverityDatum :=
  let c := severityCounts rs
  ([⟨"Baixo (1-2)", c.1, COLOR_PRIMARY⟩,
    ⟨"Médio (3)", c.2.1, COLOR_WARNING⟩,
    ⟨"Crítico (4-5)", c.2.2, COLOR_DANGER⟩]).filter (fun d => 0 < d.value)

/-- KPI `totalReports = reports.length`. -/
def totalReports (rs : List Report) : Nat := rs.length

/-- KPI `criticalReports = reports.filter(r => r.severity >= 4).length`. -/
def criticalReports (rs : List Report) : Nat :=
  (rs.filter (fun r => decide (4 ≤ r.severity))).length

/-- `reports.reduce((acc, r) => acc + r.severity, 0)`. -/
def sumSeverities (rs : List Report) : Int :=
  rs.foldl (fun acc r => acc + r.severity) 0

/-- Decimal rendering of a value given in tenths, as `toFixed(1)` prints it:
an optional sign, the integer part, a dot, and one digit. -/
def formatTenths (t : Int) : String :=
  (if t < 0 then "-" else "") ++ toString (t.natAbs / 10) ++ "." ++ toString (t.natAbs % 10)

/-- KPI `avgSeverity`: the mean severity rendered to one decimal place, the
fixed string "0.0" on an empty collection. -/
def avgSeverity (rs : List Report) : String :=
  if 0 < totalReports rs then
    formatTenths (roundTenths (sumSeverities rs) rs.length)
  else "0.0"

/-! ## Lemmas about the stable descending sort -/

theorem insertDesc_perm (key : α → Int) (x : α) (l : List α) :
    (insertDesc key x l).Perm (x :: l) := by
  induction l with
  | nil => simp [insertDesc]
  | cons y ys ih =>
    rw [insertDesc]
    by_cases h : key y < key x
    · rw [if_pos h]
    · rw [if_neg h]
      exact (List.Perm.cons y ih).trans (List.Perm.swap x y ys)

theorem foldl_insertDesc_perm (key : α → Int) (l acc : List α) :
    (l.foldl (fun acc x => insertDesc key x acc) acc).Perm (acc ++ l) := by
  induction l generalizing acc with
  | nil => simp
  | cons x xs ih =>
    rw [List.foldl_cons]
    refine (ih (insertDesc key x acc)).trans ?_
    refine (List.Perm.append_right xs (insertDesc_perm key x acc)).trans ?_
    exact List.perm_middle.symm

theorem sortDesc_perm (key : α → Int) (l : List α) : (sortDesc key l).Perm l := by
  simpa using foldl_insertDesc_perm key l []

theorem mem_insertDesc (key : α → Int) (x z : α) (l : List α) :
    z ∈ insertDesc key x l ↔ z = x ∨ z ∈ l := by
  rw [(insertDesc_perm key x l).mem_iff, List.mem_cons]

theorem insertDesc_sorted (key : α → Int) (x : α) (l : List α)
    (h : l.Pairwise (fun a b => key b ≤ key a)) :
    (insertDesc key x l).Pairwise (fun a b => key b ≤ key a) := by
  induction l with
  | nil => simp [insertDesc]
  | cons y ys ih =>
    rw [insertDesc]
    rcases List.pairwise_cons.mp h with ⟨hy, hys⟩
    by_cases hk : key y < key x
    · rw [if_pos hk]
      refine List.pairwise_cons.mpr ⟨?_, h⟩
      intro z hz
      rcases List.mem_cons.mp hz with rfl | hz
      · exact le_of_lt hk
      · exact le_trans (hy z hz) (le_of_lt hk)
    · rw [if_neg hk]
      refine List.pairwise_cons.mpr ⟨?_, ih hys⟩
      intro z hz
      rcases (mem_insertDesc key x z ys).mp hz with rfl | hz
      · exact le_of_not_lt hk
      · exact hy z hz

theorem foldl_insertDesc_sorted (key : α → Int) (l acc : List α)
    (h : acc.Pairwise (fun a b => key b ≤ key a)) :
    (l.foldl (fun acc x => insertDesc key x acc) acc).Pairwise (fun a b => key b ≤ key a) := by
  induction l generalizing acc with
  | nil => simpa using h
  | cons x xs ih =>
    rw [List.foldl_cons]
    exact ih (insertDesc key x acc) (insertDesc_sorted key x acc h)

theorem sortDesc_sorted (key : α → Int) (l : List α) :
    (sortDesc key l).Pairwise (fun a b => key b ≤ key a) := by
  exact foldl_insertDesc_sorted key l [] (by simp)

theorem filter_eq_nil_of_lt (key : α → Int) (v : Int) (l : List α)
    (h : ∀ z ∈ l, key z < v) :
    l.filter (fun y => decide (key y = v)) = [] := by
  induction l with
  | nil => rfl
  | cons y ys ih =>
    rw [List.filter_cons]
    have hne : ¬ (key y = v) := ne_of_lt (h y (List.mem_cons_self y ys))
    simp only [hne, decide_eq_true_eq, if_false]
    exact ih (fun z hz => h z (List.mem_cons_of_mem y hz))

theorem filter_insertDesc_ne (key : α → Int) (x : α) (v : Int) (l : List α)
    (hx : key x ≠ v) :
    (insertDesc key x l).filter (fun y => decide (key y = v))
      = l.filter (fun y => decide (key y = v)) := by
  induction l with
  | nil => simp [insertDesc, hx]
  | cons y ys ih =>
    rw [insertDesc]
    by_cases hk : key y < key x
    · rw [if_pos hk, List.filter_cons, List.filter_cons]
      simp [hx]
    · rw [if_neg hk, List.filter_cons, List.filter_cons, ih]

theorem filter_insertDesc_eq (key : α → Int) (x : α) (v : Int) (l : List α)
    (hl : l.Pairwise (fun a b => key b ≤ key a)) (hx : key x = v) :
    (insertDesc key x l).filter (fun y => decide (key y = v))
      = l.filter (fun y => decide (key y = v)) ++ [x] := by
  induction l with
  | nil => simp [insertDesc, hx]
  | cons y ys ih =>
    rcases List.pairwise_cons.mp hl with ⟨hy, hys⟩
    rw [insertDesc]
    by_cases hk : key y < key x
    · rw [if_pos hk, List.filter_cons, List.filter_cons]
      have hyv : ¬ (key y = v) := ne_of_lt (hx ▸ hk)
      have hrest : ys.filter (fun y => decide (key y = v)) = [] := by
        refine filter_eq_nil_of_lt key v ys (fun z hz => ?_)
        exact lt_of_le_of_lt (hy z hz) (hx ▸ hk)
      simp [hx, hyv, hrest]
    · rw [if_neg hk, List.filter_cons, List.filter_cons, ih hys]
      by_cases hyv : key y = v
      · simp [hyv]
      · simp [hyv]

theorem foldl_insertDesc_filter (key : α → Int) (v : Int) (l acc : List α)
    (h : acc.Pairwise (fun a b => key b ≤ key a)) :
    (l.foldl (fun acc x => insertDesc key x acc) acc).filter (fun y => decide (key y = v))
      = acc.filter (fun y => decide (key y = v)) ++ l.filter (fun y => decide (key y = v)) := by
  induction l generalizing acc with
  | nil => simp
  | cons x xs ih =>
    rw [List.foldl_cons, ih (insertDesc key x acc) (insertDesc_sorted key x acc h),
      List.filter_cons]
    by_cases hx : key x = v
    · rw [filter_insertDesc_eq key x v acc h hx]
      simp [hx]
    · rw [filter_insertDesc_ne key x v acc hx]
      simp [hx]

theorem sortDesc_filter (key : α → Int) (v : Int) (l : List α) :
    (sortDesc key l).filter (fun y => decide (key y = v))
      = l.filter (fun y => decide (key y = v)) := by
  simpa using foldl_insertDesc_filter key v l [] (by simp)

/-! ## Lemmas about the neighborhood grouping -/

/-- Lookup in the insertion-ordered `stats` association list. -/
def lookupStats : List (String × HoodStats) → String → Option HoodStats
  | [], _ => none
  | (k, v) :: rest, hood => if k = hood then some v else lookupStats rest hood

/-- Number of reports falling into the bucket `hood`. -/
def countIn (rs : List Report) (hood : String) : Nat :=
  (rs.filter (fun r => decide (hoodOf r = hood))).length

/-- Sum of the severities of the reports falling into the bucket `hood`. -/
def sumIn (rs : List Report) (hood : String) : Int :=
  ((rs.filter (fun r => decide (hoodOf r = hood))).map Report.severity).sum

/-- The bucket keys in order of first occurrence, i.e. JavaScript object key
insertion order of the `stats` record. -/
def groupKeys (rs : List Report) : List String :=
  rs.foldl (fun ks r => if hoodOf r ∈ ks then ks else ks ++ [hoodOf r]) []

/-- The neighborhood risk row as the specification words it: for a bucket
key, the number of reports in the group and their mean severity rounded to
one decimal place. -/
def specEntry (rs : List Report) (k : String) : HoodRisk :=
  ⟨k, roundTenths (sumIn rs k) (countIn rs k), countIn rs k⟩

/-- The grouped rows in original grouping order, before sorting. -/
def groupedEntries (rs : List Report) : List HoodRisk :=
  (groupKeys rs).map (specEntry rs)

theorem collectStats_snoc (rs : List Report) (r : Report) :
    collectStats (rs ++ [r]) = bumpStats (collectStats rs) (hoodOf r) r.severity := by
  simp [collectStats, List.foldl_append]

theorem groupKeys_snoc (rs : List Report) (r : Report) :
    groupKeys (rs ++ [r])
      = if hoodOf r ∈ groupKeys rs then groupKeys rs else groupKeys rs ++ [hoodOf r] := by
  simp [groupKeys, List.foldl_append]

theorem countIn_snoc (rs : List Report) (r : Report) (k : String) :
    countIn (rs ++ [r]) k = countIn rs k + (if hoodOf r = k then 1 else 0) := by
  by_cases h : hoodOf r = k <;> simp [countIn, List.filter_append, h]

theorem sumIn_snoc (rs : List Report) (r : Report) (k : String) :
    sumIn (rs ++ [r]) k = sumIn rs k + (if hoodOf r = k then r.severity else 0) := by
  by_cases h : hoodOf r = k <;> simp [sumIn, List.filter_append, h]

theorem lookup_bumpStats_self (acc : List (String × HoodStats)) (hood : String) (sev : Int) :
    lookupStats (bumpStats acc hood sev) hood
      = match lookupStats acc hood with
        | none => some ⟨1, sev, 1⟩
        | some st => some ⟨st.total + 1, st.sumSeverity + sev, st.count + 1⟩ := by
  induction acc with
  | nil => simp [bumpStats, lookupStats]
  | cons kv rest ih =>
    obtain ⟨k, v⟩ := kv
    rw [bumpStats]
    by_cases hk : k = hood
    · rw [if_pos hk]
      simp [lookupStats, hk]
    · rw [if_neg hk]
      simp [lookupStats, hk, ih]

theorem lookup_bumpStats_other (acc : List (String × HoodStats)) (hood k : String) (sev : Int)
    (hk : k ≠ hood) :
    lookupStats (bumpStats acc hood sev) k = lookupStats acc k := by
  have hhk : ¬ (hood = k) := fun h => hk h.symm
  induction acc with
  | nil => simp [bumpStats, lookupStats, hhk]
  | cons kv rest ih =>
    obtain ⟨k0, v0⟩ := kv
    rw [bumpStats]
    by_cases h0 : k0 = hood
    · rw [if_pos h0]
      simp [lookupStats, h0, hhk]
    · rw [if_neg h0]
      by_cases h1 : k0 = k
      · simp [lookupStats, h1]
      · simp [lookupStats, h1, ih]

theorem keys_bumpStats (acc : List (String × HoodStats)) (hood : String) (sev : Int) :
    (bumpStats acc hood sev).map Prod.fst
      = if hood ∈ acc.map Prod.fst then acc.map Prod.fst else acc.map Prod.fst ++ [hood] := by
  induction acc with
  | nil => simp [bumpStats]
  | cons kv rest ih =>
    obtain ⟨k0, v0⟩ := kv
    rw [bumpStats]
    by_cases h0 : k0 = hood
    · rw [if_pos h0]
      simp [h0]
    · rw [if_neg h0]
      have hne : hood ≠ k0 := fun h => h0 h.symm
      by_cases hm : hood ∈ rest.map Prod.fst
      · simp [hm, hne, ih]
      · simp [hm, hne, ih]

theorem nodup_keys_bumpStats (acc : List (String × HoodStats)) (hood : String) (sev : Int)
    (h : (acc.map Prod.fst).Nodup) : ((bumpStats acc hood sev).map Prod.fst).Nodup := by
  rw [keys_bumpStats]
  by_cases hm : hood ∈ acc.map Prod.fst
  · rwa [if_pos hm]
  · rw [if_neg hm]
    simp [List.nodup_append, h, hm]

theorem nodup_keys_collectStats (rs : List Report) :
    ((collectStats rs).map Prod.fst).Nodup := by
  induction rs using List.reverseRecOn with
  | nil => simp [collectStats]
  | append_singleton rs r ih =>
    rw [collectStats_snoc]
    exact nodup_keys_bumpStats _ _ _ ih

theorem lookup_collectStats (rs : List Report) (k : String) :
    lookupStats (collectStats rs) k
      = if countIn rs k = 0 then none
        else some ⟨countIn rs k, sumIn rs k, countIn rs k⟩ := by
  induction rs using List.reverseRecOn with
  | nil => simp [collectStats, lookupStats, countIn]
  | append_singleton rs r ih =>
    rw [collectStats_snoc, countIn_snoc, sumIn_snoc]
    by_cases hr : hoodOf r = k
    · rw [if_pos hr, if_pos hr, hr]
      have hself := lookup_bumpStats_self (collectStats rs) k r.severity
      rw [hself, ih]
      by_cases h0 : countIn rs k = 0
      · have hfil : rs.filter (fun x => decide (hoodOf x = k)) = [] :=
          List.length_eq_zero.mp h0
        have hsum : sumIn rs k = 0 := by simp [sumIn, hfil]
        simp [h0, hsum]
      · simp [h0]
    · rw [if_neg hr, if_neg hr]
      have hkr : k ≠ hoodOf r := fun h => hr h.symm
      rw [lookup_bumpStats_other (collectStats rs) (hoodOf r) k r.severity hkr, ih]
      simp

theorem keys_collectStats (rs : List Report) :
    (collectStats rs).map Prod.fst = groupKeys rs := by
  induction rs using List.reverseRecOn with
  | nil => simp [collectStats, groupKeys]
  | append_singleton rs r ih =>
    rw [collectStats_snoc, groupKeys_snoc, keys_bumpStats, ih]

theorem lookup_of_mem (l : List (String × HoodStats)) (kv : String × HoodStats)
    (hnd : (l.map Prod.fst).Nodup) (hm : kv ∈ l) : lookupStats l kv.1 = some kv.2 := by
  induction l with
  | nil => cases hm
  | cons kv0 rest ih =>
    obtain ⟨k0, v0⟩ := kv0
    rcases List.mem_cons.mp hm with rfl | hm'
    · simp [lookupStats]
    · have hk0 : k0 ≠ kv.1 := by
        intro h
        have : kv.1 ∈ rest.map Prod.fst := List.mem_map_of_mem Prod.fst hm'
        rw [← h] at this
        exact (List.nodup_cons.mp (by simpa using hnd)).1 this
      rw [lookupStats, if_neg hk0]
      exact ih (List.nodup_cons.mp (by simpa using hnd)).2 hm'

theorem collect_map_toRisk (rs : List Report) :
    (collectStats rs).map toRisk = groupedEntries rs := by
  have h1 : ∀ kv ∈ collectStats rs, toRisk kv = specEntry rs kv.1 := by
    intro kv hkv
    have hl := lookup_of_mem (collectStats rs) kv (nodup_keys_collectStats rs) hkv
    rw [lookup_collectStats] at hl
    by_cases h0 : countIn rs kv.1 = 0
    · rw [if_pos h0] at hl
      cases hl
    · rw [if_neg h0] at hl
      have hv : kv.2 = ⟨countIn rs kv.1, sumIn rs kv.1, countIn rs kv.1⟩ :=
        (Option.some.injEq _ _ ▸ hl.symm)
      rw [toRisk, specEntry, hv]
  have h2 : (collectStats rs).map toRisk
      = (collectStats rs).map (fun kv => specEntry rs kv.1) := List.map_congr_left h1
  rw [h2, groupedEntries, ← keys_collectStats, List.map_map]
  rfl

theorem mem_groupKeys (rs : List Report) (k : String) (h : k ∈ groupKeys rs) :
    ∃ r ∈ rs, hoodOf r = k := by
  suffices haux : ∀ (l : List Report) (acc : List String),
      k ∈ l.foldl (fun ks r => if hoodOf r ∈ ks then ks else ks ++ [hoodOf r]) acc →
      k ∈ acc ∨ ∃ r ∈ l, hoodOf r = k by
    rcases haux rs [] h with hc | hc
    · cases hc
    · exact hc
  intro l
  induction l with
  | nil => exact fun acc hacc => Or.inl hacc
  | cons r rest ih =>
    intro acc hacc
    rw [List.foldl_cons] at hacc
    rcases ih _ hacc with hc | ⟨r', hr', hk'⟩
    · by_cases hm : hoodOf r ∈ acc
      · rw [if_pos hm] at hc
        exact Or.inl hc
      · rw [if_neg hm] at hc
        rcases List.mem_append.mp hc with hc | hc
        · exact Or.inl hc
        · refine Or.inr ⟨r, List.mem_cons_self r rest, ?_⟩
          exact (List.mem_singleton.mp hc).symm
    · exact Or.inr ⟨r', List.mem_cons_of_mem r hr', hk'⟩

theorem countIn_pos_of_mem_groupKeys (rs : List Report) (k : String)
    (h : k ∈ groupKeys rs) : 0 < countIn rs k := by
  obtain ⟨r, hr, hk⟩ := mem_groupKeys rs k h
  have : r ∈ rs.filter (fun x => decide (hoodOf x = k)) :=
    List.mem_filter.mpr ⟨hr, by simp [hk]⟩
  exact List.length_pos_of_mem this

theorem roundTenths_bounds (sum : Int) (count : Nat) (h : 0 < count) :
    2 * (count : Int) * roundTenths sum count ≤ 20 * sum + count ∧
      20 * sum + (count : Int) < 2 * count * (roundTenths sum count + 1) := by
  have hb : (0 : Int) < 2 * count := by positivity
  rw [roundTenths, Int.fdiv_eq_ediv _ (le_of_lt hb)]
  have hdm := Int.ediv_add_emod (20 * sum + count) (2 * count)
  have hnn := Int.emod_nonneg (20 * sum + count) (ne_of_gt hb)
  have hlt := Int.emod_lt_of_pos (20 * sum + count) hb
  constructor
  · nlinarith [hdm, hnn]
  · nlinarith [hdm, hlt]

/-! ## Aggregator claim theorems -/

/-- Concrete report used to instantiate witnesses. -/
def demoReport (id : String) (hood : Option String) (sev : Int) : Report :=
  ⟨id, ReportCategory.FLOODING, none, "bueiro entupido na esquina", ⟨-12.97, -38.50⟩,
   hood, 0, sev, "análise", ReportStatus.pending, none⟩

/-- Concrete report collection used to instantiate witnesses. -/
def demoReports : List Report :=
  [demoReport "1" (some "Pituba") 4, demoReport "2" (some "Pituba") 5,
   demoReport "3" none 2, demoReport "4" (some "Brotas") 3]

/-- C6: for every report collection, the neighborhood risk table groups the
reports by neighborhood (reports without one in the literal unknown bucket
"Desconhecido"), each row carrying the group's report count and its mean
severity rounded to one decimal place (in tenths), and the rows are a
permutation of the grouped rows ordered so the rounded means are
non-increasing, rows with equal rounded mean keeping their original grouping
order (for every tenths value, filtering the output on that value gives
exactly the input-ordered rows). -/
theorem neighborhoodRisks_spec (rs : List Report) :
    (neighborhoodRisks rs).Perm (groupedEntries rs)
  ∧ (neighborhoodRisks rs).Pairwise (fun a b => b.riskTenths ≤ a.riskTenths)
  ∧ (∀ v : Int, (neighborhoodRisks rs).filter (fun e => decide (e.riskTenths = v))
       = (groupedEntries rs).filter (fun e => decide (e.riskTenths = v)))
  ∧ (∀ k ∈ groupKeys rs, 0 < countIn rs k ∧
       2 * (countIn rs k : Int) * (specEntry rs k).riskTenths
         ≤ 20 * sumIn rs k + countIn rs k ∧
       20 * sumIn rs k + (countIn rs k : Int)
         < 2 * countIn rs k * ((specEntry rs k).riskTenths + 1)) := by
  refine ⟨?_, ?_, ?_, ?_⟩
  · simp only [neighborhoodRisks]
    rw [← collect_map_toRisk]
    exact sortDesc_perm _ _
  · exact sortDesc_sorted _ _
  · intro v
    simp only [neighborhoodRisks]
    rw [← collect_map_toRisk]
    exact sortDesc_filter _ v _
  · intro k hk
    have hc := countIn_pos_of_mem_groupKeys rs k hk
    exact ⟨hc, (roundTenths_bounds (sumIn rs k) (countIn rs k) hc).1,
      (roundTenths_bounds (sumIn rs k) (countIn rs k) hc).2⟩

/-- Witness for C6 at a concrete collection and bucket. -/
theorem neighborhoodRisks_spec_witness :
    0 < countIn demoReports "Pituba"
  ∧ 2 * (countIn demoReports "Pituba" : Int) * (specEntry demoReports "Pituba").riskTenths
      ≤ 20 * sumIn demoReports "Pituba" + countIn demoReports "Pituba"
  ∧ 20 * sumIn demoReports "Pituba" + (countIn demoReports "Pituba" : Int)
      < 2 * countIn demoReports "Pituba" * ((specEntry demoReports "Pituba").riskTenths + 1) :=
  (neighborhoodRisks_spec demoReports).2.2.2 "Pituba" (by decide)

theorem foldl_add_severity (rs : List Report) : ∀ a : Int,
    rs.foldl (fun acc r => acc + r.severity) a = a + (rs.map Report.severity).sum := by
  induction rs with
  | nil => simp
  | cons r rest ih =>
    intro a
    rw [List.foldl_cons, ih, List.map_cons, List.sum_cons]
    ring

/-- C7: the KPIs are the report count, the count of reports with severity at
least 4, and the mean severity over all reports rendered to one decimal
place; on the empty collection they are 0, 0 and "0.0", and the category
histogram and severity buckets are empty. -/
theorem kpis_spec (rs : List Report) :
    totalReports rs = rs.length
  ∧ criticalReports rs = rs.countP (fun r => decide (4 ≤ r.severity))
  ∧ (rs ≠ [] →
      avgSeverity rs = formatTenths (roundTenths ((rs.map Report.severity).sum) rs.length)
      ∧ 2 * (rs.length : Int) * roundTenths ((rs.map Report.severity).sum) rs.length
          ≤ 20 * (rs.map Report.severity).sum + rs.length
      ∧ 20 * (rs.map Report.severity).sum + (rs.length : Int)
          < 2 * rs.length * (roundTenths ((rs.map Report.severity).sum) rs.length + 1))
  ∧ avgSeverity [] = "0.0"
  ∧ categoryData ([] : List Report) = []
  ∧ severityData ([] : List Report) = [] := by
  refine ⟨rfl, (List.countP_eq_length_filter _ _).symm, ?_, rfl, rfl, rfl⟩
  intro hne
  have hlen : 0 < rs.length := List.length_pos.mpr hne
  have hsum : sumSeverities rs = (rs.map Report.severity).sum := by
    rw [sumSeverities, foldl_add_severity rs 0, zero_add]
  refine ⟨?_, (roundTenths_bounds _ _ hlen).1, (roundTenths_bounds _ _ hlen).2⟩
  rw [avgSeverity, if_pos (show 0 < totalReports rs from hlen), hsum]

/-- Witness for C7 at a concrete non-empty collection. -/
theorem kpis_spec_witness :
    avgSeverity demoReports
      = formatTenths (roundTenths ((demoReports.map Report.severity).sum) demoReports.length) :=
  ((kpis_spec demoReports).2.2.1 (by decide)).1

theorem severityCounts_go (rs : List Report) : ∀ a b c : Nat,
    rs.foldl
      (fun acc r =>
        if 4 ≤ r.severity then (acc.1, acc.2.1, acc.2.2 + 1)
        else if r.severity = 3 then (acc.1, acc.2.1 + 1, acc.2.2)
        else (acc.1 + 1, acc.2.1, acc.2.2))
      (a, b, c)
    = (a + rs.countP (fun r => decide (r.severity ≤ 2)),
       b + rs.countP (fun r => decide (r.severity = 3)),
       c + rs.countP (fun r => decide (4 ≤ r.severity))) := by
  induction rs with
  | nil => simp
  | cons r rest ih =>
    intro a b c
    rw [List.foldl_cons]
    by_cases h4 : 4 ≤ r.severity
    · have h2 : ¬ (r.severity ≤ 2) := by omega
      have h3 : ¬ (r.severity = 3) := by omega
      simp only [if_pos h4, ih, List.countP_cons, h2, h3, h4, decide_eq_true_eq,
        Prod.mk.injEq]
      refine ⟨by simp [h2], by simp [h3], by simp [h4]; omega⟩
    · by_cases h3 : r.severity = 3
      · have h2 : ¬ (r.severity ≤ 2) := by omega
        simp only [if_neg h4, if_pos h3, ih, List.countP_cons, Prod.mk.injEq]
        refine ⟨by simp [h2], by simp [h3]; omega, by simp [h4]⟩
      · have h2 : r.severity ≤ 2 := by omega
        simp only [if_neg h4, if_neg h3, ih, List.countP_cons, Prod.mk.injEq]
        refine ⟨by simp [h2]; omega, by simp [h3], by simp [h4]⟩

theorem severity_partition (rs : List Report) :
    rs.countP (fun r => decide (r.severity ≤ 2)) + rs.countP (fun r => decide (r.severity = 3))
      + rs.countP (fun r => decide (4 ≤ r.severity)) = rs.length := by
  induction rs with
  | nil => rfl
  | cons r rest ih =>
    simp only [List.countP_cons, List.length_cons]
    by_cases h2 : r.severity ≤ 2 <;> by_cases h3 : r.severity = 3 <;>
      by_cases h4 : 4 ≤ r.severity <;> simp [h2, h3, h4] <;> omega

/-- C8: the severity buckets partition the collection into low (severity at
most 2), medium (severity 3) and high (severity at least 4), the three counts
sum to the total number of reports, and exactly the non-empty buckets appear
in the chart data, in the fixed low/medium/high order. -/
theorem severityBuckets_spec (rs : List Report) :
    (severityCounts rs).1 = rs.countP (fun r => decide (r.severity ≤ 2))
  ∧ (severityCounts rs).2.1 = rs.countP (fun r => decide (r.severity = 3))
  ∧ (severityCounts rs).2.2 = rs.countP (fun r => decide (4 ≤ r.severity))
  ∧ (severityCounts rs).1 + (severityCounts rs).2.1 + (severityCounts rs).2.2 = rs.length
  ∧ (∀ d ∈ severityData rs, 0 < d.value)
  ∧ severityData rs
      = (if 0 < (severityCounts rs).1
          then [⟨"Baixo (1-2)", (severityCounts rs).1, COLOR_PRIMARY⟩] else [])
        ++ ((if 0 < (severityCounts rs).2.1
          then [⟨"Médio (3)", (severityCounts rs).2.1, COLOR_WARNING⟩] else [])
        ++ (if 0 < (severityCounts rs).2.2
          then [⟨"Crítico (4-5)", (severityCounts rs).2.2, COLOR_DANGER⟩] else [])) := by
  have hgo := severityCounts_go rs 0 0 0
  have h1 : (severityCounts rs).1 = rs.countP (fun r => decide (r.severity ≤ 2)) := by
    rw [severityCounts, hgo]
    simp
  have h2 : (severityCounts rs).2.1 = rs.countP (fun r => decide (r.severity = 3)) := by
    rw [severityCounts, hgo]
    simp
  have h3 : (severityCounts rs).2.2 = rs.countP (fun r => decide (4 ≤ r.severity)) := by
    rw [severityCounts, hgo]
    simp
  refine ⟨h1, h2, h3, ?_, ?_, ?_⟩
  · rw [h1, h2, h3]
    exact severity_partition rs
  · intro d hd
    have := List.mem_filter.mp hd
    simpa using this.2
  · rw [severityData]
    by_cases hl : 0 < (severityCounts rs).1 <;>
      by_cases hm : 0 < (severityCounts rs).2.1 <;>
      by_cases hh : 0 < (severityCounts rs).2.2 <;>
      simp [List.filter_cons, hl, hm, hh]

/-- Witness for C8 at a concrete collection and bucket. -/
theorem severityBuckets_spec_witness :
    0 < (SeverityDatum.mk "Crítico (4-5)" 2 COLOR_DANGER).value :=
  (severityBuckets_spec demoReports).2.2.2.2.1
    (SeverityDatum.mk "Crítico (4-5)" 2 COLOR_DANGER) (by decide)

/-! ## Gateway and controller claim theorems -/

/-- C1: whenever the underlying transport call fails — it throws or yields an
empty response — `analyzeReportDescription` returns severity 3 with the fixed
reassurance text, `extractLocationFromText` returns the "Salvador (Centro)"
label, the fixed city-center coordinate (lat -12.9777, lng -38.5016) and the
fixed apology text, `generateInitialGreeting` returns the fixed canned
greeting, and `inferCategoryFromText` returns no match; no gateway operation
propagates a failure (each is a total function into its result type). -/
theorem gateway_fallback_spec :
    (∀ d c : String,
      analyzeReportDescription d c StructuredResponse.throwErr
        = ⟨"Entendido. Por favor, compartilhe a localização para que possamos registrar a ocorrência.", 3, none⟩
      ∧ analyzeReportDescription d c StructuredResponse.empty
        = ⟨"Entendido. Por favor, compartilhe a localização para que possamos registrar a ocorrência.", 3, none⟩)
  ∧ (∀ t : String,
      extractLocationFromText t StructuredResponse.throwErr
        = ⟨"Salvador (Centro)", ⟨-12.9777, -38.5016⟩,
           "Não consegui identificar o local exato pelo texto. Usarei o centro da cidade como referência."⟩
      ∧ extractLocationFromText t StructuredResponse.empty
        = ⟨"Salvador (Centro)", ⟨-12.9777, -38.5016⟩,
           "Não consegui identificar o local exato pelo texto. Usarei o centro da cidade como referência."⟩)
  ∧ generateInitialGreeting GenResponse.throwErr = GREETING_FALLBACK
  ∧ generateInitialGreeting (GenResponse.ok none) = GREETING_FALLBACK
  ∧ generateInitialGreeting (GenResponse.ok (some "")) = GREETING_FALLBACK
  ∧ (∀ t : String,
      inferCategoryFromText t GenResponse.throwErr = none
      ∧ inferCategoryFromText t (GenResponse.ok none) = none
      ∧ inferCategoryFromText t (GenResponse.ok (some "")) = none) :=
  ⟨fun d c => ⟨rfl, rfl⟩, fun t => ⟨rfl, rfl⟩, rfl, rfl, rfl,
   fun t => ⟨rfl, rfl, rfl⟩⟩

/-- C4: the finalize step shared by the GPS, text and map paths synthesizes
the report from the draft plus the resolved coordinate — category falls back
to the "Outro" catch-all when unset (or empty, hence falsy), severity to 1
when unset (or 0), analysis text to the fixed no-analysis string, description
to the sub-category and then to the fixed placeholder — with the fixed
pending status, and appends exactly that report to the report collection. -/
theorem finalizeReport_spec (clk : Nat → Nat) (s : AppState) (coords : Coordinates)
    (nb : Option String) :
    ∃ r : Report,
    (finalizeReport clk s coords nb).reports = s.reports ++ [r]
  ∧ ((s.tempReportData.category = none ∨ s.tempReportData.category = some "") →
      r.category = ReportCategory.OTHER)
  ∧ (∀ c, s.tempReportData.category = some c → c ≠ "" → r.category = c)
  ∧ ((s.tempReportData.severity = none ∨ s.tempReportData.severity = some 0) →
      r.severity = 1)
  ∧ (∀ v, s.tempReportData.severity = some v → v ≠ 0 → r.severity = v)
  ∧ ((s.tempReportData.aiAnalysis = none ∨ s.tempReportData.aiAnalysis = some "") →
      r.aiAnalysis = "Sem análise")
  ∧ (∀ a, s.tempReportData.aiAnalysis = some a → a ≠ "" → r.aiAnalysis = a)
  ∧ (∀ d, s.tempReportData.description = some d → d ≠ "" → r.description = d)
  ∧ ((s.tempReportData.description = none ∨ s.tempReportData.description = some "") →
      ∀ sub, s.tempReportData.subcategory = some sub → sub ≠ "" → r.description = sub)
  ∧ ((s.tempReportData.description = none ∨ s.tempReportData.description = some "") →
      (s.tempReportData.subcategory = none ∨ s.tempReportData.subcategory = some "") →
      r.description = "Sem descrição detalhada")
  ∧ r.subcategory = s.tempReportData.subcategory
  ∧ r.imageUrl = s.tempReportData.imageUrl
  ∧ r.location = coords
  ∧ r.neighborhood = nb
  ∧ r.status = ReportStatus.pending := by
  refine ⟨{ id := toString (clk 0),
            category := orFalsy s.tempReportData.category ReportCategory.OTHER,
            subcategory := s.tempReportData.subcategory,
            description := orFalsy s.tempReportData.description
              (orFalsy s.tempReportData.subcategory "Sem descrição detalhada"),
            location := coords, neighborhood := nb, timestamp := clk 0,
            severity := orFalsyInt s.tempReportData.severity 1,
            aiAnalysis := orFalsy s.tempReportData.aiAnalysis "Sem análise",
            status := ReportStatus.pending,
            imageUrl := s.tempReportData.imageUrl },
          ?_, ?_, ?_, ?_, ?_, ?_, ?_, ?_, ?_, ?_, rfl, rfl, rfl, rfl, rfl⟩
  · simp [finalizeReport, addMessage]
  · rintro (h | h) <;> simp [orFalsy, h]
  · intro c hc hne
    simp [orFalsy, hc, hne]
  · rintro (h | h) <;> simp [orFalsyInt, h]
  · intro v hv hne
    simp [orFalsyInt, hv, hne]
  · rintro (h | h) <;> simp [orFalsy, h]
  · intro a ha hne
    simp [orFalsy, ha, hne]
  · intro d hd hne
    simp [orFalsy, hd, hne]
  · rintro (h | h) sub hsub hne <;> simp [orFalsy, h, hsub, hne]
  · rintro (h | h) (hs | hs) <;> simp [orFalsy, h, hs]

/-- Witness for C4: an empty draft finalizes into the all-fallback report. -/
theorem finalizeReport_spec_witness :
    ((finalizeReport (fun i => i) initState ⟨-12.97, -38.50⟩ none).reports.map
        Report.category = [ReportCategory.OTHER])
  ∧ ((finalizeReport (fun i => i) initState ⟨-12.97, -38.50⟩ none).reports.map
        Report.severity = [1])
  ∧ ((finalizeReport (fun i => i) initState ⟨-12.97, -38.50⟩ none).reports.map
        Report.description = ["Sem descrição detalhada"])
  ∧ ((finalizeReport (fun i => i) initState ⟨-12.97, -38.50⟩ none).reports.map
        Report.aiAnalysis = ["Sem análise"]) := by
  obtain ⟨r, hrep, hcat, _, hsev, _, hai, _, _, _, hdesc, _, _, _, _, _⟩ :=
    finalizeReport_spec (fun i => i) initState ⟨-12.97, -38.50⟩ none
  refine ⟨?_, ?_, ?_, ?_⟩
  · rw [hrep]
    simp [hcat (Or.inl rfl), initState]
  · rw [hrep]
    simp [hsev (Or.inl rfl), initState]
  · rw [hrep]
    simp [hdesc (Or.inl rfl) (Or.inl rfl), initState]
  · rw [hrep]
    simp [hai (Or.inl rfl), initState]

/-- C5: if the GPS request fails, the waiting-for-location flag is cleared,
an error bot message is appended, the dialogue state remains
LOCATION_METHOD_SELECTION, and neither the draft nor the report collection
changes. -/
theorem gpsFailure_spec (clk : Nat → Nat) (s : AppState)
    (hstep : s.currentStep = FlowStep.LOCATION_METHOD_SELECTION) :
    (handleLocationRequest clk s LocationMethod.gps GeoOutcome.failure).waitingForLocation = false
  ∧ (handleLocationRequest clk s LocationMethod.gps GeoOutcome.failure).messages
      = s.messages ++ [botMsg (clk 0) "Erro ao obter GPS. Tente digitar o bairro ou usar o mapa."]
  ∧ (handleLocationRequest clk s LocationMethod.gps GeoOutcome.failure).currentStep
      = FlowStep.LOCATION_METHOD_SELECTION
  ∧ (handleLocationRequest clk s LocationMethod.gps GeoOutcome.failure).tempReportData
      = s.tempReportData
  ∧ (handleLocationRequest clk s LocationMethod.gps GeoOutcome.failure).reports = s.reports := by
  refine ⟨rfl, rfl, ?_, rfl, rfl⟩
  simpa [handleLocationRequest, addMessage] using hstep

/-- Witness for C5 at a concrete state in LOCATION_METHOD_SELECTION. -/
theorem gpsFailure_spec_witness :
    (handleLocationRequest (fun i => i)
        { initState with currentStep := FlowStep.LOCATION_METHOD_SELECTION }
        LocationMethod.gps GeoOutcome.failure).waitingForLocation = false
  ∧ (handleLocationRequest (fun i => i)
        { initState with currentStep := FlowStep.LOCATION_METHOD_SELECTION }
        LocationMethod.gps GeoOutcome.failure).currentStep
      = FlowStep.LOCATION_METHOD_SELECTION :=
  ⟨(gpsFailure_spec (fun i => i) _ rfl).1, (gpsFailure_spec (fun i => i) _ rfl).2.2.1⟩

/-! ## Free-text category inference in the selection states -/

theorem handleUserMessage_infer_some (clk : Nat → Nat) (s : AppState) (text : String)
    (image : Option String) (inferResp : GenResponse)
    (analyzeResp : StructuredResponse AiResponse)
    (locResp : StructuredResponse LocationExtractionResponse) (c : String)
    (hstep : s.currentStep = FlowStep.CATEGORY_SELECTION ∨
             s.currentStep = FlowStep.SUBCATEGORY_SELECTION)
    (hc : inferCategoryFromText text inferResp = some c) :
    handleUserMessage clk s text image inferResp analyzeResp locResp =
      { view := s.view
        messages := s.messages ++
          [userMsg (clk 0) text image,
           botMsg (clk 1) ("Entendido. Identifiquei que se trata de: " ++ c ++ "."),
           botMsg (clk 2) (analyzeReportDescription text c analyzeResp).text,
           botLocationRequest (clk 3)
             "Para finalizar, como prefere informar a localização exata?"]
        reports := s.reports
        currentStep := FlowStep.LOCATION_METHOD_SELECTION
        tempReportData :=
          { category := some c, subcategory := none, description := some text,
            severity := some (analyzeReportDescription text c analyzeResp).severity,
            aiAnalysis := some (analyzeReportDescription text c analyzeResp).text,
            imageUrl := none }
        isTyping := false
        waitingForLocation := s.waitingForLocation
        showMapPicker := s.showMapPicker } := by
  rcases hstep with h | h <;> cases image <;>
    simp [handleUserMessage, addMessage, h, hc, List.append_assoc]

theorem handleUserMessage_infer_none (clk : Nat → Nat) (s : AppState) (text : String)
    (image : Option String) (inferResp : GenResponse)
    (analyzeResp : StructuredResponse AiResponse)
    (locResp : StructuredResponse LocationExtractionResponse)
    (hstep : s.currentStep = FlowStep.CATEGORY_SELECTION ∨
             s.currentStep = FlowStep.SUBCATEGORY_SELECTION)
    (hc : inferCategoryFromText text inferResp = none) :
    handleUserMessage clk s text image inferResp analyzeResp locResp =
      { view := s.view
        messages := s.messages ++
          [userMsg (clk 0) text image,
           botQuickReply (clk 1)
             "Não consegui identificar a categoria automaticamente. Por favor, selecione uma das opções."
             MAIN_CATEGORIES]
        reports := s.reports
        currentStep := FlowStep.CATEGORY_SELECTION
        tempReportData :=
          match image with
          | some img => { s.tempReportData with imageUrl := some img }
          | none => s.tempReportData
        isTyping := false
        waitingForLocation := s.waitingForLocation
        showMapPicker := s.showMapPicker } := by
  rcases hstep with h | h <;> cases image <;>
    simp [handleUserMessage, addMessage, h, hc, List.append_assoc]

/-- C3: free text submitted in CATEGORY_SELECTION: when `inferCategoryFromText`
resolves a known category, the controller records it plus the raw text as the
draft's description, runs the analysis immediately and stores its severity
and text on the draft, appends the AI response, appends the location-method
prompt, and moves straight to LOCATION_METHOD_SELECTION (no
SUBCATEGORY_SELECTION or DESCRIPTION state is entered); when inference
returns no match, the controller re-prompts with the fixed main-category
quick-reply set and the state remains CATEGORY_SELECTION. -/
theorem categorySelection_freeText_spec (clk : Nat → Nat) (s : AppState) (text : String)
    (image : Option String) (inferResp : GenResponse)
    (analyzeResp : StructuredResponse AiResponse)
    (locResp : StructuredResponse LocationExtractionResponse)
    (hstep : s.currentStep = FlowStep.CATEGORY_SELECTION) :
    (∀ c, inferCategoryFromText text inferResp = some c →
      handleUserMessage clk s text image inferResp analyzeResp locResp =
        { view := s.view
          messages := s.messages ++
            [userMsg (clk 0) text image,
             botMsg (clk 1) ("Entendido. Identifiquei que se trata de: " ++ c ++ "."),
             botMsg (clk 2) (analyzeReportDescription text c analyzeResp).text,
             botLocationRequest (clk 3)
               "Para finalizar, como prefere informar a localização exata?"]
          reports := s.reports
          currentStep := FlowStep.LOCATION_METHOD_SELECTION
          tempReportData :=
            { category := some c, subcategory := none, description := some text,
              severity := some (analyzeReportDescription text c analyzeResp).severity,
              aiAnalysis := some (analyzeReportDescription text c analyzeResp).text,
              imageUrl := none }
          isTyping := false
          waitingForLocation := s.waitingForLocation
          showMapPicker := s.showMapPicker })
  ∧ (inferCategoryFromText text inferResp = none →
      handleUserMessage clk s text image inferResp analyzeResp locResp =
        { view := s.view
          messages := s.messages ++
            [userMsg (clk 0) text image,
             botQuickReply (clk 1)
               "Não consegui identificar a categoria automaticamente. Por favor, selecione uma das opções."
               MAIN_CATEGORIES]
          reports := s.reports
          currentStep := FlowStep.CATEGORY_SELECTION
          tempReportData :=
            match image with
            | some img => { s.tempReportData with imageUrl := some img }
            | none => s.tempReportData
          isTyping := false
          waitingForLocation := s.waitingForLocation
          showMapPicker := s.showMapPicker }) :=
  ⟨fun c hc => handleUserMessage_infer_some clk s text image inferResp analyzeResp
     locResp c (Or.inl hstep) hc,
   fun hn => handleUserMessage_infer_none clk s text image inferResp analyzeResp
     locResp (Or.inl hstep) hn⟩

/-- Concrete state sitting in CATEGORY_SELECTION. -/
def csState : AppState := { initState with currentStep := FlowStep.CATEGORY_SELECTION }

/-- Witness for C3: both branches at concrete inputs. -/
theorem categorySelection_freeText_spec_witness :
    (handleUserMessage (fun i => i) csState "tem uma rachadura enorme na minha parede" none
        (GenResponse.ok (some "Rachaduras e Estruturas")) StructuredResponse.throwErr
        StructuredResponse.throwErr).currentStep = FlowStep.LOCATION_METHOD_SELECTION
  ∧ (handleUserMessage (fun i => i) csState "xyz" none
        (GenResponse.ok (some "xyz")) StructuredResponse.throwErr
        StructuredResponse.throwErr).currentStep = FlowStep.CATEGORY_SELECTION := by
  constructor
  · rw [(categorySelection_freeText_spec (fun i => i) csState
      "tem uma rachadura enorme na minha parede" none
      (GenResponse.ok (some "Rachaduras e Estruturas")) StructuredResponse.throwErr
      StructuredResponse.throwErr rfl).1 "Rachaduras e Estruturas" (by decide)]
  · rw [(categorySelection_freeText_spec (fun i => i) csState "xyz" none
      (GenResponse.ok (some "xyz")) StructuredResponse.throwErr
      StructuredResponse.throwErr rfl).2 (by decide)]

theorem finalizeReport_reports (clk : Nat → Nat) (s : AppState) (coords : Coordinates)
    (nb : Option String) :
    ∃ r : Report, (finalizeReport clk s coords nb).reports = s.reports ++ [r]
      ∧ r.subcategory = s.tempReportData.subcategory
      ∧ r.imageUrl = s.tempReportData.imageUrl := by
  refine ⟨{ id := toString (clk 0),
            category := orFalsy s.tempReportData.category ReportCategory.OTHER,
            subcategory := s.tempReportData.subcategory,
            description := orFalsy s.tempReportData.description
              (orFalsy s.tempReportData.subcategory "Sem descrição detalhada"),
            location := coords, neighborhood := nb, timestamp := clk 0,
            severity := orFalsyInt s.tempReportData.severity 1,
            aiAnalysis := orFalsy s.tempReportData.aiAnalysis "Sem análise",
            status := ReportStatus.pending,
            imageUrl := s.tempReportData.imageUrl }, ?_, rfl, rfl⟩
  simp [finalizeReport, addMessage]

/-- C10: when free text submitted in CATEGORY_SELECTION or
SUBCATEGORY_SELECTION is successfully classified, the draft is replaced
wholesale with only the inferred category, the raw text as description and
the analysis results: an image attached on that same input event and any
previously stored sub-category or image are dropped from the draft and do
not appear in the finalized report. -/
theorem freeTextInference_discards_draft (clk clk2 : Nat → Nat) (s : AppState)
    (text img : String) (inferResp : GenResponse)
    (analyzeResp : StructuredResponse AiResponse)
    (locResp : StructuredResponse LocationExtractionResponse) (c : String)
    (coords : Coordinates) (nb : Option String)
    (hstep : s.currentStep = FlowStep.CATEGORY_SELECTION ∨
             s.currentStep = FlowStep.SUBCATEGORY_SELECTION)
    (hc : inferCategoryFromText text inferResp = some c) :
    (handleUserMessage clk s text (some img) inferResp analyzeResp locResp).tempReportData
      = { category := some c, subcategory := none, description := some text,
          severity := some (analyzeReportDescription text c analyzeResp).severity,
          aiAnalysis := some (analyzeReportDescription text c analyzeResp).text,
          imageUrl := none }
  ∧ (∃ r : Report,
      (finalizeReport clk2
          (handleUserMessage clk s text (some img) inferResp analyzeResp locResp)
          coords nb).reports
        = (handleUserMessage clk s text (some img) inferResp analyzeResp locResp).reports
          ++ [r]
      ∧ r.subcategory = none ∧ r.imageUrl = none) := by
  have h := handleUserMessage_infer_some clk s text (some img) inferResp analyzeResp
    locResp c hstep hc
  constructor
  · rw [h]
  · obtain ⟨r, hr, hsub, himg⟩ := finalizeReport_reports clk2
      (handleUserMessage clk s text (some img) inferResp analyzeResp locResp) coords nb
    refine ⟨r, hr, ?_, ?_⟩
    · rw [hsub, h]
    · rw [himg, h]

/-- Concrete state in CATEGORY_SELECTION whose draft already holds a
sub-category and an image. -/
def dirtyState : AppState :=
  { initState with
      currentStep := FlowStep.CATEGORY_SELECTION,
      tempReportData :=
        ⟨some "Rachaduras e Estruturas", some "Bueiro entupido",
         some "descrição antiga", some 2, some "análise antiga",
         some "imagem-antiga"⟩ }

/-- Witness for C10: prior sub-category and image, plus an image attached to
the event, all disappear from the draft. -/
theorem freeTextInference_discards_draft_witness :
    (handleUserMessage (fun i => i) dirtyState "alagou tudo na rua"
        (some "foto-nova") (GenResponse.ok (some "Alagamentos e Enchentes"))
        StructuredResponse.throwErr StructuredResponse.throwErr).tempReportData.subcategory
      = none
  ∧ (handleUserMessage (fun i => i) dirtyState "alagou tudo na rua"
        (some "foto-nova") (GenResponse.ok (some "Alagamentos e Enchentes"))
        StructuredResponse.throwErr StructuredResponse.throwErr).tempReportData.imageUrl
      = none := by
  have h := freeTextInference_discards_draft (fun i => i) (fun i => i) dirtyState
    "alagou tudo na rua" "foto-nova" (GenResponse.ok (some "Alagamentos e Enchentes"))
    StructuredResponse.throwErr StructuredResponse.throwErr "Alagamentos e Enchentes"
    ⟨-12.97, -38.50⟩ none (Or.inl rfl) (by decide)
  constructor <;> rw [h.1]

/-! ## Failing-input evaluations -/

/-- C2 (failing-input evaluation): the controller stores the gateway's parsed
severity without range validation, so an analysis response carrying severity 6
produces a finalized report whose severity lies outside [1,5]: free text in
CATEGORY_SELECTION is classified as Flooding, the analysis severity 6 lands on
the draft, and the successful GPS path finalizes the report with severity 6. -/
theorem report_severity_unvalidated :
    ((handleLocationRequest (fun i => i)
        (handleUserMessage (fun i => i) csState "alagou tudo aqui" none
          (GenResponse.ok (some "Alagamentos e Enchentes"))
          (StructuredResponse.parsed ⟨"Análise da ocorrência.", 6, none⟩)
          StructuredResponse.throwErr)
        LocationMethod.gps (GeoOutcome.success (-12.97) (-38.50))).reports.map
      Report.severity) = [6]
  ∧ ¬ (∀ r ∈ (handleLocationRequest (fun i => i)
        (handleUserMessage (fun i => i) csState "alagou tudo aqui" none
          (GenResponse.ok (some "Alagamentos e Enchentes"))
          (StructuredResponse.parsed ⟨"Análise da ocorrência.", 6, none⟩)
          StructuredResponse.throwErr)
        LocationMethod.gps (GeoOutcome.success (-12.97) (-38.50))).reports,
        1 ≤ r.severity ∧ r.severity ≤ 5) := by
  constructor
  · decide
  · decide

/-- C9 (failing-input evaluation): `finalizeReport` builds each message id
from a fresh `Date.now()` read; when its two consecutive synchronous appends
fall into the same millisecond — here both reads return 1000 — the two
distinct bot messages of the finalization step carry identical ids, violating
id uniqueness on the transcript. -/
theorem finalize_duplicate_message_ids :
    ((finalizeReport (fun i => 1000) initState ⟨-12.97, -38.50⟩ none).messages.map
        Message.id) = ["1000", "1000"]
  ∧ ((finalizeReport (fun i => 1000) initState ⟨-12.97, -38.50⟩ none).messages.map
        Message.text)
      = ["✅ Denúncia registrada e analisada pela IA. O local foi adicionado ao mapa de risco.",
         "O que deseja fazer agora?"]
  ∧ ¬ ((finalizeReport (fun i => 1000) initState ⟨-12.97, -38.50⟩ none).messages.Pairwise
        (fun m1 m2 => m1.id ≠ m2.id)) := by
  refine ⟨by decide, by decide, by decide⟩
